import Mathlib

/-!
Shallow embedding of the Trail.Ai voice-chat client core
(`src/unnamed/part_000`, the React `App` component) and of the base64
audio path used by its Audio Codec Adapter.

The embedding models the client-side Conversation Store, the remote-sync
snapshot reconciliation, and the message-exchange pipeline `handleSend`
as pure state-transition functions.  Browser/environment effects that the
component consumes (fresh random ids, clock readings, the backend HTTP
response, the `window.prompt` result) enter as explicit parameters; the
Firestore writes/deletes that the component schedules are recorded in
`pendingSaves` / `pendingDeletes` lists; `alert` calls are recorded in an
`alerts` list.
-/

/-- One chat turn: `role` is `"user"` or `"ai"`; `audioUrl` is the optional
local resource handle attached to `ai` messages. -/
structure Message where
  role : String
  text : String
  timestamp : Nat
  audioUrl : Option String
deriving DecidableEq, Repr

/-- A conversation record, exactly the shape produced by
`createNewConversation` in the source. -/
structure Conversation where
  id : String
  title : String
  createdAt : Nat
  messages : List Message
deriving DecidableEq, Repr

/-- The mutable React state of `App` that the claims concern.  `user` is
whether an authenticated user is present; `pendingSaves` records the
conversations handed to `saveConversationToFirestore` (which is a no-op
when logged out), `pendingDeletes` the ids handed to
`deleteConversationFromFirestore`, and `alerts` the `alert(...)` calls. -/
structure AppState where
  conversations : List Conversation
  currentConversationId : Option String
  inputText : String
  selectedFile : Option String
  loading : Bool
  chatLoading : Bool
  user : Bool
  pendingSaves : List Conversation
  pendingDeletes : List String
  alerts : List String
deriving DecidableEq, Repr

/-- JavaScript's `String.prototype.trim`: strips leading and trailing
whitespace. -/
def jsTrim (s : String) : String :=
  String.mk (((s.data.dropWhile Char.isWhitespace).reverse.dropWhile
    Char.isWhitespace).reverse)

/-- `createNewConversation(index)` from the source: fresh id (supplied here
by the environment, as `crypto.randomUUID()` / `Date.now()` are), title
`"New Chat {index}"`, current timestamp, empty message list. -/
def createNewConversation (freshId : String) (now : Nat) (index : Nat) : Conversation :=
  { id := freshId
    title := "New Chat " ++ toString index
    createdAt := now
    messages := [] }

/-- `currentConversation`: the conversation found by
`currentConversationId`, falling back to `conversations[0]`. -/
def currentConversation (s : AppState) : Option Conversation :=
  (s.conversations.find? (fun c => s.currentConversationId = some c.id)).orElse
    (fun _ => s.conversations.head?)

/-- `updateCurrentConversationMessages(updater)`: maps the updater over the
message list of every conversation whose id equals the current
conversation's id, then (when logged in) schedules a Firestore save of the
updated conversation; no-op when `currentConversation` is absent. -/
def updateCurrentConversationMessages (updater : List Message → List Message)
    (s : AppState) : AppState :=
  match currentConversation s with
  | none => s
  | some cur =>
    let updated := s.conversations.map (fun c =>
      if c.id = cur.id then { c with messages := updater c.messages } else c)
    let pend :=
      if s.user then
        match updated.find? (fun c => c.id = cur.id) with
        | some conv => s.pendingSaves ++ [conv]
        | none => s.pendingSaves
      else s.pendingSaves
    { s with conversations := updated, pendingSaves := pend }

/-- `handleNewChat`: appends a fresh conversation titled with index
`conversations.length + 1`, makes it active, clears the input, and
schedules a save when logged in. -/
def handleNewChat (freshId : String) (now : Nat) (s : AppState) : AppState :=
  let newConv := createNewConversation freshId now (s.conversations.length + 1)
  { s with
    conversations := s.conversations ++ [newConv]
    currentConversationId := some newConv.id
    inputText := ""
    pendingSaves := if s.user then s.pendingSaves ++ [newConv] else s.pendingSaves }

/-- `handleRenameChat(conv)` with the `window.prompt` result passed in:
`none` models a cancelled prompt; an empty or whitespace-only reply is
rejected (no-op); otherwise the trimmed reply replaces the title of the
conversation with `conv.id` and a save of the retitled record is
scheduled when logged in. -/
def handleRenameChat (conv : Conversation) (promptResult : Option String)
    (s : AppState) : AppState :=
  match promptResult with
  | none => s
  | some newTitle =>
    if newTitle = "" ∨ jsTrim newTitle = "" then s
    else
      let updatedTitle := jsTrim newTitle
      { s with
        conversations := s.conversations.map (fun c =>
          if c.id = conv.id then { c with title := updatedTitle } else c)
        pendingSaves :=
          if s.user then s.pendingSaves ++ [{ conv with title := updatedTitle }]
          else s.pendingSaves }

/-- `deleteChatById(convId)`: filters the conversation out, schedules the
remote delete when logged in; if the store would become empty, installs a
fresh default conversation (index 1) and makes it active; otherwise, if
the deleted id was active, activates `filtered[0]`. -/
def deleteChatById (freshId : String) (now : Nat) (convId : String)
    (s : AppState) : AppState :=
  let filtered := s.conversations.filter (fun c => c.id ≠ convId)
  let dels := if s.user then s.pendingDeletes ++ [convId] else s.pendingDeletes
  if filtered.isEmpty then
    let newConv := createNewConversation freshId now 1
    { s with
      conversations := [newConv]
      currentConversationId := some newConv.id
      pendingDeletes := dels
      pendingSaves := if s.user then s.pendingSaves ++ [newConv] else s.pendingSaves }
  else if s.currentConversationId = some convId then
    { s with
      conversations := filtered
      currentConversationId := filtered.head?.map (fun c => c.id)
      pendingDeletes := dels }
  else
    { s with conversations := filtered, pendingDeletes := dels }

/-- The logged-out effect (source lines 75–81): when no user is present,
install one fresh default conversation and make it active. -/
def loggedOutDefaultEffect (freshId : String) (now : Nat) (s : AppState) : AppState :=
  if s.user then s
  else
    let firstConv := createNewConversation freshId now 1
    { s with
      conversations := [firstConv]
      currentConversationId := some firstConv.id }

/-- The `onSnapshot` success callback: stop the loading flag; when the
snapshot is empty, synthesize a default conversation (index 1), install it
as the sole conversation, activate it and schedule its save; otherwise
replace the collection with the loaded set and keep the active id when it
still exists, else activate `loaded[0]`. -/
def onSnapshotCallback (freshId : String) (now : Nat) (loaded : List Conversation)
    (s : AppState) : AppState :=
  if loaded.isEmpty then
    let firstConv := createNewConversation freshId now 1
    { s with
      chatLoading := false
      conversations := [firstConv]
      currentConversationId := some firstConv.id
      pendingSaves := if s.user then s.pendingSaves ++ [firstConv] else s.pendingSaves }
  else
    { s with
      chatLoading := false
      conversations := loaded
      currentConversationId :=
        match loaded.find? (fun c => s.currentConversationId = some c.id) with
        | some _ => s.currentConversationId
        | none => loaded.head?.map (fun c => c.id) }

/-! ## Base64: the Audio Codec Adapter

The backend returns `audioBuffer.toString("base64")` (standard RFC 4648
base64 with padding); the client's `base64ToAudioUrl` runs `atob` over it,
turns the resulting binary string's char codes into a byte array, wraps
the bytes in a `Blob` and returns an object URL for it. -/

/-- The standard base64 alphabet, as indexed by `btoa`/`atob` and
`Buffer.toString("base64")`. -/
def base64Chars : List Char :=
  ['A', 'B', 'C', 'D', 'E', 'F', 'G', 'H', 'I', 'J', 'K', 'L', 'M',
   'N', 'O', 'P', 'Q', 'R', 'S', 'T', 'U', 'V', 'W', 'X', 'Y', 'Z',
   'a', 'b', 'c', 'd', 'e', 'f', 'g', 'h', 'i', 'j', 'k', 'l', 'm',
   'n', 'o', 'p', 'q', 'r', 's', 't', 'u', 'v', 'w', 'x', 'y', 'z',
   '0', '1', '2', '3', '4', '5', '6', '7', '8', '9', '+', '/']

/-- The alphabet character for a 6-bit value. -/
def sextetChar (n : Nat) : Char := base64Chars.getD n '?'

def charSextetAux : List Char → Nat → Char → Option Nat
  | [], _, _ => none
  | a :: rest, i, c => if a = c then some i else charSextetAux rest (i + 1) c

/-- The 6-bit value of an alphabet character, `none` off-alphabet. -/
def charSextet (c : Char) : Option Nat := charSextetAux base64Chars 0 c

/-- RFC 4648 base64 encoding of a byte sequence (the form
`Buffer.toString("base64")` emits): 3 bytes become 4 alphabet characters;
a 1- or 2-byte tail is padded with `==` / `=`. -/
def base64Encode : List Nat → List Char
  | [] => []
  | [a] => [sextetChar (a / 4), sextetChar (a % 4 * 16), '=', '=']
  | [a, b] =>
    [sextetChar (a / 4), sextetChar (a % 4 * 16 + b / 16), sextetChar (b % 16 * 4), '=']
  | a :: b :: c :: rest =>
    sextetChar (a / 4) :: sextetChar (a % 4 * 16 + b / 16) ::
      sextetChar (b % 16 * 4 + c / 64) :: sextetChar (c % 64) :: base64Encode rest

/-- `atob` on a well-formed padded base64 string, producing the char codes
of the binary string it returns (which are exactly the decoded bytes that
`base64ToAudioUrl` copies into its `Uint8Array`); `none` models the
`InvalidCharacterError` throw on malformed input. -/
def base64Decode : List Char → Option (List Nat)
  | c1 :: c2 :: c3 :: c4 :: rest =>
    match charSextet c1, charSextet c2 with
    | some s1, some s2 =>
      if c3 = '=' ∧ c4 = '=' ∧ rest = [] then
        some [s1 * 4 + s2 / 16]
      else
        match charSextet c3 with
        | some s3 =>
          if c4 = '=' ∧ rest = [] then
            some [s1 * 4 + s2 / 16, s2 % 16 * 16 + s3 / 4]
          else
            match charSextet c4, base64Decode rest with
            | some s4, some bs =>
              some ((s1 * 4 + s2 / 16) :: (s2 % 16 * 16 + s3 / 4) :: (s3 % 4 * 64 + s4) :: bs)
            | _, _ => none
        | none => none
    | _, _ => none
  | [] => some []
  | _ => none

/-- `atob` over a `String`. -/
def atob (s : String) : Option (List Nat) := base64Decode s.data

/-- `Buffer.toString("base64")` on the backend's audio bytes. -/
def bufferToBase64 (bytes : List Nat) : String := String.mk (base64Encode bytes)

/-- `URL.createObjectURL`: an opaque local handle for a blob holding the
given bytes. -/
def createObjectURL (bytes : List Nat) : String := "blob:" ++ toString bytes

/-- `base64ToAudioUrl(base64)`: decode via `atob`, collect the char codes
into a byte array, and hand back an object URL for the resulting blob
(`none` models the throw on malformed base64, which `handleSend` catches). -/
def base64ToAudioUrl (base64 : String) : Option String :=
  (atob base64).map createObjectURL

/-- The underlying byte content of the blob resource that
`base64ToAudioUrl` builds its object URL over. -/
def base64ToAudioBlobBytes (base64 : String) : Option (List Nat) := atob base64

/-! ## The message exchange pipeline -/

/-- The outcome of the `fetch` to `/api/voice-chat` or `/api/file-chat`
as `handleSend` observes it: `ok`/`status` from the response object,
`replyText`/`audioBase64` the (possibly absent) fields of a parsed success
body, `errorField` the (possibly absent) `error` field of a parsed failure
body. -/
structure BackendResponse where
  ok : Bool
  status : Nat
  replyText : Option String
  audioBase64 : Option String
  errorField : Option String
deriving DecidableEq, Repr

/-- `handleSend(textToSend)`: validation of input and active conversation,
append of the `user` message (display text = the raw text when its trim is
non-empty, else a `📎 filename` marker), the request (its outcome passed
in as `resp`; `none` models a rejected fetch, caught as a network error),
and on a success body carrying non-empty `replyText` and `audioBase64`
the append of the `ai` message with the decoded audio handle.  `nowU` and
`nowA` are the two `Date.now()` readings. -/
def handleSend (textToSend : Option String) (nowU nowA : Nat)
    (resp : Option BackendResponse) (s : AppState) : AppState :=
  let text := textToSend.getD s.inputText
  if jsTrim text = "" ∧ s.selectedFile = none then
    { s with alerts := s.alerts ++ ["Please type a message or upload a file."] }
  else
    match currentConversation s with
    | none =>
      { s with alerts := s.alerts ++ ["No active conversation. Create a new chat first."] }
    | some _ =>
      let displayText :=
        if jsTrim text ≠ "" then text
        else
          match s.selectedFile with
          | some f => "📎 " ++ f
          | none => ""
      let s1 :=
        if displayText ≠ "" then
          updateCurrentConversationMessages (fun msgs =>
            msgs ++ [{ role := "user", text := displayText, timestamp := nowU, audioUrl := none }]) s
        else s
      let s2 := { s1 with loading := true, inputText := "" }
      match resp with
      | none =>
        { s2 with loading := false, alerts := s2.alerts ++ ["Network error"] }
      | some r =>
        let s3 := if s.selectedFile.isSome then { s2 with selectedFile := none } else s2
        let s4 :=
          if r.ok = false then
            { s3 with alerts := s3.alerts ++
                ["Server error " ++ toString r.status ++ ": " ++ r.errorField.getD ""] }
          else if r.audioBase64.getD "" = "" ∨ r.replyText.getD "" = "" then
            { s3 with alerts := s3.alerts ++ ["Server did not return audioBase64 / replyText"] }
          else
            match base64ToAudioUrl (r.audioBase64.getD "") with
            | some url =>
              updateCurrentConversationMessages (fun msgs =>
                msgs ++ [{ role := "ai", text := r.replyText.getD "", timestamp := nowA,
                           audioUrl := some url }]) s3
            | none => { s3 with alerts := s3.alerts ++ ["Network error"] }
        { s4 with loading := false }

/-! ## Create/delete operation sequences over the store -/

/-- A user-driven store operation: "new chat" or "delete chat", with the
environment-supplied fresh id and clock reading. -/
inductive StoreOp where
  | create (freshId : String) (now : Nat)
  | delete (freshId : String) (now : Nat) (convId : String)
deriving DecidableEq, Repr

def applyStoreOp (s : AppState) : StoreOp → AppState
  | .create fid now => handleNewChat fid now s
  | .delete fid now cid => deleteChatById fid now cid s

def runStoreOps (s : AppState) (ops : List StoreOp) : AppState :=
  ops.foldl applyStoreOp s

/-! ## Sample fixtures used to evaluate the theorems on concrete inputs -/

def sampleConvA : Conversation := ⟨"a", "New Chat 1", 0, []⟩

def sampleConvB : Conversation := ⟨"b", "Chat B", 1, []⟩

def sampleState : AppState :=
  ⟨[sampleConvA], some "a", "hello", none, false, false, false, [], [], []⟩

def sampleStateTwo : AppState :=
  ⟨[sampleConvA, sampleConvB], some "a", "", none, false, false, false, [], [], []⟩

def sampleStateUser : AppState :=
  ⟨[sampleConvA], some "a", "", none, false, false, true, [], [], []⟩

def sampleStateStale : AppState :=
  ⟨[⟨"a", "t", 0, []⟩], some "b", "", none, false, false, false, [], [], []⟩

def sampleResponseOk : BackendResponse := ⟨true, 200, some "hi there", some "QQ==", none⟩

def sampleResponseErr : BackendResponse := ⟨false, 500, none, none, some "boom"⟩

/-! ## Base64 round-trip -/

theorem charSextet_sextetChar (n : Nat) (h : n < 64) : charSextet (sextetChar n) = some n := by
  have key : ∀ m : Fin 64, charSextet (sextetChar m.val) = some m.val := by decide
  exact key ⟨n, h⟩

theorem sextetChar_ne_pad (n : Nat) (h : n < 64) : sextetChar n ≠ '=' := by
  have key : ∀ m : Fin 64, sextetChar m.val ≠ '=' := by decide
  exact key ⟨n, h⟩

/-- Decoding inverts encoding on any byte sequence. -/
theorem base64Decode_base64Encode :
    ∀ bs : List Nat, (∀ b ∈ bs, b < 256) → base64Decode (base64Encode bs) = some bs
  | [], _ => rfl
  | [a], h => by
      have ha : a < 256 := h a (by simp)
      have h1 := charSextet_sextetChar (a / 4) (by omega)
      have h2 := charSextet_sextetChar (a % 4 * 16) (by omega)
      simp [base64Encode, base64Decode, h1, h2]
      omega
  | [a, b], h => by
      have ha : a < 256 := h a (by simp)
      have hb : b < 256 := h b (by simp)
      have h1 := charSextet_sextetChar (a / 4) (by omega)
      have h2 := charSextet_sextetChar (a % 4 * 16 + b / 16) (by omega)
      have h3 := charSextet_sextetChar (b % 16 * 4) (by omega)
      have h3ne := sextetChar_ne_pad (b % 16 * 4) (by omega)
      simp [base64Encode, base64Decode, h1, h2, h3, h3ne]
      omega
  | a :: b :: c :: rest, h => by
      have ha : a < 256 := h a (by simp)
      have hb : b < 256 := h b (by simp)
      have hc : c < 256 := h c (by simp)
      have hrest := base64Decode_base64Encode rest (fun x hx => h x (by simp [hx]))
      have h1 := charSextet_sextetChar (a / 4) (by omega)
      have h2 := charSextet_sextetChar (a % 4 * 16 + b / 16) (by omega)
      have h3 := charSextet_sextetChar (b % 16 * 4 + c / 64) (by omega)
      have h4 := charSextet_sextetChar (c % 64) (by omega)
      have h3ne := sextetChar_ne_pad (b % 16 * 4 + c / 64) (by omega)
      have h4ne := sextetChar_ne_pad (c % 64) (by omega)
      simp [base64Encode, base64Decode, h1, h2, h3, h4, h3ne, h4ne, hrest]
      omega

/-- C9: encoding an arbitrary byte sequence to base64 and decoding it via
the Audio Codec Adapter (`base64ToAudioUrl`'s `atob`-to-`Uint8Array` path)
yields a blob resource whose underlying bytes equal the original
sequence. -/
theorem audio_base64_roundtrip (bs : List Nat) (h : ∀ b ∈ bs, b < 256) :
    base64ToAudioBlobBytes (bufferToBase64 bs) = some bs := by
  show base64Decode (String.mk (base64Encode bs)).data = some bs
  exact base64Decode_base64Encode bs h

/-- Witness for C9 at the byte sequence of "Hello". -/
theorem audio_base64_roundtrip_witness :
    (∀ b ∈ [72, 101, 108, 108, 111], b < 256) ∧
      base64ToAudioBlobBytes (bufferToBase64 [72, 101, 108, 108, 111]) =
        some [72, 101, 108, 108, 111] :=
  ⟨by decide, audio_base64_roundtrip [72, 101, 108, 108, 111] (by decide)⟩

/-! ## Store helper lemmas -/

theorem updateMessages_conversations (f : List Message → List Message)
    (s : AppState) (cur : Conversation) (h : currentConversation s = some cur) :
    (updateCurrentConversationMessages f s).conversations =
      s.conversations.map (fun c =>
        if c.id = cur.id then { c with messages := f c.messages } else c) := by
  unfold updateCurrentConversationMessages
  rw [h]

theorem updateMessages_currentId (f : List Message → List Message) (s : AppState) :
    (updateCurrentConversationMessages f s).currentConversationId =
      s.currentConversationId := by
  unfold updateCurrentConversationMessages
  split <;> rfl

theorem updateMessages_alerts (f : List Message → List Message) (s : AppState) :
    (updateCurrentConversationMessages f s).alerts = s.alerts := by
  unfold updateCurrentConversationMessages
  split <;> rfl

/-- Rebuilding the current conversation through an id-preserving map. -/
theorem currentConversation_map_id_pres (l : List Conversation) (key : Option String)
    (g : Conversation → Conversation) (hg : ∀ c, (g c).id = c.id) :
    (((l.map g).find? fun c => key = some c.id).orElse fun _ => (l.map g).head?) =
      ((l.find? fun c => key = some c.id).orElse fun _ => l.head?).map g := by
  have hpq : ((fun c : Conversation => decide (key = some c.id)) ∘ g) =
      (fun c : Conversation => decide (key = some c.id)) := by
    funext c
    simp [Function.comp, hg]
  rw [List.find?_map, hpq, List.head?_map]
  cases l.find? (fun c => key = some c.id) <;> simp [Option.orElse]

/-- After a message mutation the current conversation is the old one with
the updater applied to its messages. -/
theorem currentConversation_updateMessages (f : List Message → List Message)
    (s : AppState) (cur : Conversation) (h : currentConversation s = some cur) :
    currentConversation (updateCurrentConversationMessages f s) =
      some { cur with messages := f cur.messages } := by
  have hconv := updateMessages_conversations f s cur h
  unfold currentConversation at h ⊢
  rw [hconv, updateMessages_currentId]
  rw [currentConversation_map_id_pres s.conversations s.currentConversationId _
    (fun c => by by_cases hc : c.id = cur.id <;> simp [hc])]
  rw [h]
  simp

theorem file_marker_ne_empty (f : String) : ("📎 " ++ f) ≠ "" := by
  intro hcontra
  have h2 := congrArg String.length hcontra
  rw [String.length_append] at h2
  have h3 : "📎 ".length = 2 := rfl
  simp [h3] at h2

theorem ne_empty_of_jsTrim_ne (t : String) (h : jsTrim t ≠ "") : t ≠ "" := by
  intro h0
  exact h (by rw [h0]; decide)

theorem applyStoreOp_conversations_ne_nil (s : AppState) (op : StoreOp) :
    (applyStoreOp s op).conversations ≠ [] := by
  cases op with
  | create fid now => simp [applyStoreOp, handleNewChat]
  | delete fid now cid =>
    simp only [applyStoreOp]
    unfold deleteChatById
    by_cases hF : (s.conversations.filter (fun c => c.id ≠ cid)).isEmpty = true
    · rw [if_pos hF]
      simp
    · rw [if_neg hF]
      have hne : s.conversations.filter (fun c => c.id ≠ cid) ≠ [] := by
        intro h0
        exact hF (by rw [h0]; rfl)
      split_ifs <;> simpa using hne

theorem runStoreOps_conversations_ne_nil (s : AppState) (h : s.conversations ≠ [])
    (ops : List StoreOp) : (runStoreOps s ops).conversations ≠ [] := by
  induction ops generalizing s with
  | nil => exact h
  | cons op ops ih => exact ih _ (applyStoreOp_conversations_ne_nil s op)

/-- Deleting the sole remaining conversation installs a fresh active
default. -/
theorem delete_last_refills (fid : String) (now : Nat) (c : Conversation) (s : AppState)
    (hone : s.conversations = [c]) :
    (deleteChatById fid now c.id s).conversations = [createNewConversation fid now 1] ∧
    (deleteChatById fid now c.id s).currentConversationId =
      some (createNewConversation fid now 1).id := by
  unfold deleteChatById
  simp [hone]

/-! ## Claim theorems -/

/-- Claim C1: for every sequence of create and delete operations the
Conversation Store never becomes empty, and deleting the last remaining
conversation always yields exactly one fresh default conversation (index 1,
title `"New Chat 1"`) which is made active. -/
theorem store_never_empty (s : AppState) (h : s.conversations ≠ []) (ops : List StoreOp) :
    (runStoreOps s ops).conversations ≠ [] ∧
    (∀ (fid : String) (now : Nat) (c : Conversation), s.conversations = [c] →
      (deleteChatById fid now c.id s).conversations = [createNewConversation fid now 1] ∧
      (deleteChatById fid now c.id s).currentConversationId =
        some (createNewConversation fid now 1).id ∧
      (createNewConversation fid now 1).title = "New Chat 1") :=
  ⟨runStoreOps_conversations_ne_nil s h ops,
   fun fid now c hone =>
     ⟨(delete_last_refills fid now c s hone).1, (delete_last_refills fid now c s hone).2,
      rfl⟩⟩

/-- Witness for C1: one delete of the sole conversation of a concrete
store. -/
theorem store_never_empty_witness :
    sampleState.conversations ≠ [] ∧
    ((runStoreOps sampleState [StoreOp.delete "b" 1 "a"]).conversations ≠ [] ∧
    (∀ (fid : String) (now : Nat) (c : Conversation), sampleState.conversations = [c] →
      (deleteChatById fid now c.id sampleState).conversations =
        [createNewConversation fid now 1] ∧
      (deleteChatById fid now c.id sampleState).currentConversationId =
        some (createNewConversation fid now 1).id ∧
      (createNewConversation fid now 1).title = "New Chat 1")) :=
  ⟨by decide, store_never_empty sampleState (by decide) [StoreOp.delete "b" 1 "a"]⟩

set_option maxHeartbeats 1000000 in
/-- Claim C2: under the send preconditions (non-empty trimmed text or an
attached file, and an existing active conversation), an exchange whose
response is ok and whose body carries non-empty `replyText` and decodable
non-empty `audioBase64` grows the active conversation's message sequence by
exactly two: the `user` message first, then the `ai` message carrying the
reply text and an audio handle, with all prior messages unchanged. -/
theorem handleSend_success_appends_two
    (tts : Option String) (nowU nowA : Nat) (r : BackendResponse) (s : AppState)
    (cur : Conversation) (rt ab url : String)
    (hpre : ¬(jsTrim (tts.getD s.inputText) = "" ∧ s.selectedFile = none))
    (hcur : currentConversation s = some cur)
    (hok : r.ok = true)
    (hab : r.audioBase64 = some ab) (habne : ab ≠ "")
    (hrt : r.replyText = some rt) (hrtne : rt ≠ "")
    (hdec : base64ToAudioUrl ab = some url) :
    ∃ u am : Message, u.role = "user" ∧ am.role = "ai" ∧ am.text = rt ∧
      am.audioUrl = some url ∧
      currentConversation (handleSend tts nowU nowA (some r) s) =
        some { cur with messages := cur.messages ++ [u, am] } := by
  by_cases htr : jsTrim (tts.getD s.inputText) = ""
  · rcases hsel : s.selectedFile with _ | f
    · exact absurd ⟨htr, hsel⟩ hpre
    · refine ⟨⟨"user", "📎 " ++ f, nowU, none⟩, ⟨"ai", rt, nowA, some url⟩,
        rfl, rfl, rfl, rfl, ?_⟩
      have hdne := file_marker_ne_empty f
      simp [handleSend, hcur, hsel, hok, hab, hrt, htr, hdne, hdec, habne, hrtne]
      have hcur1 := currentConversation_updateMessages
        (fun msgs => msgs ++ [Message.mk "user" ("📎 " ++ f) nowU none]) s cur hcur
      generalize hgen : updateCurrentConversationMessages
        (fun msgs => msgs ++ [Message.mk "user" ("📎 " ++ f) nowU none]) s = s1 at hcur1 ⊢
      have hcur3 : currentConversation { s1 with inputText := "", selectedFile := none, loading := true } = some { cur with messages := cur.messages ++ [Message.mk "user" ("📎 " ++ f) nowU none] } := hcur1
      have hcur4 := currentConversation_updateMessages
        (fun msgs => msgs ++ [Message.mk "ai" rt nowA (some url)]) _ _ hcur3
      exact (rfl.trans hcur4).trans (by simp)
  · have htne := ne_empty_of_jsTrim_ne _ htr
    rcases hsel : s.selectedFile with _ | f
    · refine ⟨⟨"user", tts.getD s.inputText, nowU, none⟩, ⟨"ai", rt, nowA, some url⟩,
        rfl, rfl, rfl, rfl, ?_⟩
      simp [handleSend, hcur, hsel, hok, hab, hrt, htr, htne, hdec, habne, hrtne]
      have hcur1 := currentConversation_updateMessages
        (fun msgs => msgs ++ [Message.mk "user" (tts.getD s.inputText) nowU none]) s cur hcur
      generalize hgen : updateCurrentConversationMessages
        (fun msgs => msgs ++ [Message.mk "user" (tts.getD s.inputText) nowU none]) s = s1 at hcur1 ⊢
      have hcur3 : currentConversation { s1 with inputText := "", loading := true } = some { cur with messages := cur.messages ++ [Message.mk "user" (tts.getD s.inputText) nowU none] } := hcur1
      have hcur4 := currentConversation_updateMessages
        (fun msgs => msgs ++ [Message.mk "ai" rt nowA (some url)]) _ _ hcur3
      exact (rfl.trans hcur4).trans (by simp)
    · refine ⟨⟨"user", tts.getD s.inputText, nowU, none⟩, ⟨"ai", rt, nowA, some url⟩,
        rfl, rfl, rfl, rfl, ?_⟩
      simp [handleSend, hcur, hsel, hok, hab, hrt, htr, htne, hdec, habne, hrtne]
      have hcur1 := currentConversation_updateMessages
        (fun msgs => msgs ++ [Message.mk "user" (tts.getD s.inputText) nowU none]) s cur hcur
      generalize hgen : updateCurrentConversationMessages
        (fun msgs => msgs ++ [Message.mk "user" (tts.getD s.inputText) nowU none]) s = s1 at hcur1 ⊢
      have hcur3 : currentConversation { s1 with inputText := "", selectedFile := none, loading := true } = some { cur with messages := cur.messages ++ [Message.mk "user" (tts.getD s.inputText) nowU none] } := hcur1
      have hcur4 := currentConversation_updateMessages
        (fun msgs => msgs ++ [Message.mk "ai" rt nowA (some url)]) _ _ hcur3
      exact (rfl.trans hcur4).trans (by simp)

/-- Witness for C2: a concrete successful text exchange. -/
theorem handleSend_success_appends_two_witness :
    (¬(jsTrim ((none : Option String).getD sampleState.inputText) = "" ∧
        sampleState.selectedFile = none)) ∧
    currentConversation sampleState = some sampleConvA ∧
    sampleResponseOk.ok = true ∧
    sampleResponseOk.audioBase64 = some "QQ==" ∧ ("QQ==" : String) ≠ "" ∧
    sampleResponseOk.replyText = some "hi there" ∧ ("hi there" : String) ≠ "" ∧
    base64ToAudioUrl "QQ==" = some ("blob:" ++ toString [65]) ∧
    (∃ u am : Message, u.role = "user" ∧ am.role = "ai" ∧ am.text = "hi there" ∧
      am.audioUrl = some ("blob:" ++ toString [65]) ∧
      currentConversation (handleSend none 1 2 (some sampleResponseOk) sampleState) =
        some { sampleConvA with messages := sampleConvA.messages ++ [u, am] }) :=
  ⟨by decide, by decide, by decide, by decide, by decide, by decide, by decide, by decide,
   handleSend_success_appends_two none 1 2 sampleResponseOk sampleState sampleConvA
     "hi there" "QQ==" ("blob:" ++ toString [65]) (by decide) (by decide) (by decide)
     (by decide) (by decide) (by decide) (by decide) (by decide)⟩

set_option maxHeartbeats 1000000 in
/-- Claim C3: under the send preconditions, a failed exchange (fetch
rejection, non-ok status, or a success body missing `replyText` or
`audioBase64`) appends exactly the `user` message to the active
conversation, appends no `ai` message to any conversation, leaves every
other conversation unchanged, and surfaces one user-visible error. -/
theorem handleSend_failure_no_ai_message
    (tts : Option String) (nowU nowA : Nat) (resp : Option BackendResponse) (s : AppState)
    (cur : Conversation)
    (hpre : ¬(jsTrim (tts.getD s.inputText) = "" ∧ s.selectedFile = none))
    (hcur : currentConversation s = some cur)
    (hfail : resp = none ∨ ∃ r, resp = some r ∧
      (r.ok = false ∨ r.audioBase64.getD "" = "" ∨ r.replyText.getD "" = "")) :
    ∃ u : Message, ∃ err : String, u.role = "user" ∧
      (handleSend tts nowU nowA resp s).conversations =
        s.conversations.map (fun c =>
          if c.id = cur.id then { c with messages := c.messages ++ [u] } else c) ∧
      (handleSend tts nowU nowA resp s).alerts = s.alerts ++ [err] := by
  by_cases htr : jsTrim (tts.getD s.inputText) = ""
  · rcases hsel : s.selectedFile with _ | f
    · exact absurd ⟨htr, hsel⟩ hpre
    · have hdne := file_marker_ne_empty f
      rcases hfail with hnone | ⟨r, hr, hfr⟩
      · subst hnone
        refine ⟨Message.mk "user" ("📎 " ++ f) nowU none, "Network error", rfl, ?_, ?_⟩ <;>
          simp [handleSend, hcur, hsel, htr, hdne,
            updateMessages_conversations, updateMessages_alerts]
      · subst hr
        cases hok : r.ok
        · refine ⟨Message.mk "user" ("📎 " ++ f) nowU none,
            "Server error " ++ toString r.status ++ ": " ++ r.errorField.getD "",
            rfl, ?_, ?_⟩ <;>
            simp [handleSend, hcur, hsel, htr, hdne, hok,
              updateMessages_conversations, updateMessages_alerts]
        · rcases hfr with hokf | hm | hm
          · rw [hok] at hokf
            exact absurd hokf (by simp)
          · refine ⟨Message.mk "user" ("📎 " ++ f) nowU none,
              "Server did not return audioBase64 / replyText", rfl, ?_, ?_⟩ <;>
              simp [handleSend, hcur, hsel, htr, hdne, hok, hm,
                updateMessages_conversations, updateMessages_alerts]
          · refine ⟨Message.mk "user" ("📎 " ++ f) nowU none,
              "Server did not return audioBase64 / replyText", rfl, ?_, ?_⟩ <;>
              simp [handleSend, hcur, hsel, htr, hdne, hok, hm,
                updateMessages_conversations, updateMessages_alerts]
  · have htne := ne_empty_of_jsTrim_ne _ htr
    rcases hsel : s.selectedFile with _ | f <;>
    · rcases hfail with hnone | ⟨r, hr, hfr⟩
      · subst hnone
        refine ⟨Message.mk "user" (tts.getD s.inputText) nowU none, "Network error",
          rfl, ?_, ?_⟩ <;>
          simp [handleSend, hcur, hsel, htr, htne,
            updateMessages_conversations, updateMessages_alerts]
      · subst hr
        cases hok : r.ok
        · refine ⟨Message.mk "user" (tts.getD s.inputText) nowU none,
            "Server error " ++ toString r.status ++ ": " ++ r.errorField.getD "",
            rfl, ?_, ?_⟩ <;>
            simp [handleSend, hcur, hsel, htr, htne, hok,
              updateMessages_conversations, updateMessages_alerts]
        · rcases hfr with hokf | hm | hm
          · rw [hok] at hokf
            exact absurd hokf (by simp)
          · refine ⟨Message.mk "user" (tts.getD s.inputText) nowU none,
              "Server did not return audioBase64 / replyText", rfl, ?_, ?_⟩ <;>
              simp [handleSend, hcur, hsel, htr, htne, hok, hm,
                updateMessages_conversations, updateMessages_alerts]
          · refine ⟨Message.mk "user" (tts.getD s.inputText) nowU none,
              "Server did not return audioBase64 / replyText", rfl, ?_, ?_⟩ <;>
              simp [handleSend, hcur, hsel, htr, htne, hok, hm,
                updateMessages_conversations, updateMessages_alerts]

/-- Witness for C3: a concrete exchange hitting a 500 response. -/
theorem handleSend_failure_no_ai_message_witness :
    (¬(jsTrim ((none : Option String).getD sampleState.inputText) = "" ∧
        sampleState.selectedFile = none)) ∧
    currentConversation sampleState = some sampleConvA ∧
    (some sampleResponseErr = none ∨ ∃ r, some sampleResponseErr = some r ∧
      (r.ok = false ∨ r.audioBase64.getD "" = "" ∨ r.replyText.getD "" = "")) ∧
    (∃ u : Message, ∃ err : String, u.role = "user" ∧
      (handleSend none 1 2 (some sampleResponseErr) sampleState).conversations =
        sampleState.conversations.map (fun c =>
          if c.id = sampleConvA.id then { c with messages := c.messages ++ [u] } else c) ∧
      (handleSend none 1 2 (some sampleResponseErr) sampleState).alerts =
        sampleState.alerts ++ [err]) :=
  ⟨by decide, by decide, Or.inr ⟨sampleResponseErr, rfl, Or.inl rfl⟩,
   handleSend_failure_no_ai_message none 1 2 (some sampleResponseErr) sampleState
     sampleConvA (by decide) (by decide) (Or.inr ⟨sampleResponseErr, rfl, Or.inl rfl⟩)⟩

/-- Claim C4: a remote snapshot carrying a non-empty conversation set
replaces the local collection with exactly that set; the active id is kept
when it occurs in the set and otherwise becomes the id of the set's first
element. -/
theorem onSnapshot_nonempty_replace (fid : String) (now : Nat) (loaded : List Conversation)
    (s : AppState) (c0 : Conversation) (rest : List Conversation)
    (hload : loaded = c0 :: rest) :
    (onSnapshotCallback fid now loaded s).conversations = loaded ∧
    ((∃ c ∈ loaded, some c.id = s.currentConversationId) →
      (onSnapshotCallback fid now loaded s).currentConversationId =
        s.currentConversationId) ∧
    ((¬∃ c ∈ loaded, some c.id = s.currentConversationId) →
      (onSnapshotCallback fid now loaded s).currentConversationId = some c0.id) := by
  subst hload
  unfold onSnapshotCallback
  rw [if_neg (by simp)]
  refine ⟨rfl, ?_, ?_⟩
  · rintro ⟨c, hc, hid⟩
    cases hf : (c0 :: rest).find? (fun c => s.currentConversationId = some c.id) with
    | some c2 => simp [hf]
    | none =>
      have hall := List.find?_eq_none.mp hf c hc
      rw [← hid] at hall
      simp at hall
  · intro hnone
    cases hf : (c0 :: rest).find? (fun c => s.currentConversationId = some c.id) with
    | some c2 =>
      have hmem := List.mem_of_find?_eq_some hf
      have hp := List.find?_some hf
      simp at hp
      exact absurd ⟨c2, hmem, hp.symm⟩ hnone
    | none => simp [hf]

/-- Witness for C4: a snapshot replacing a store whose active id is absent
from the snapshot. -/
theorem onSnapshot_nonempty_replace_witness :
    ([sampleConvB] = sampleConvB :: ([] : List Conversation)) ∧
    ((onSnapshotCallback "f" 9 [sampleConvB] sampleState).conversations = [sampleConvB] ∧
    ((∃ c ∈ [sampleConvB], some c.id = sampleState.currentConversationId) →
      (onSnapshotCallback "f" 9 [sampleConvB] sampleState).currentConversationId =
        sampleState.currentConversationId) ∧
    ((¬∃ c ∈ [sampleConvB], some c.id = sampleState.currentConversationId) →
      (onSnapshotCallback "f" 9 [sampleConvB] sampleState).currentConversationId =
        some sampleConvB.id)) :=
  ⟨rfl, onSnapshot_nonempty_replace "f" 9 [sampleConvB] sampleState sampleConvB [] rfl⟩

/-- Claim C5: a remote snapshot carrying an empty set synthesizes exactly
one default conversation, installs it as the sole local conversation,
makes it active, and schedules its remote write. -/
theorem onSnapshot_empty_selfheal (fid : String) (now : Nat) (s : AppState)
    (huser : s.user = true) :
    (onSnapshotCallback fid now [] s).conversations = [createNewConversation fid now 1] ∧
    (onSnapshotCallback fid now [] s).currentConversationId =
      some (createNewConversation fid now 1).id ∧
    (onSnapshotCallback fid now [] s).pendingSaves =
      s.pendingSaves ++ [createNewConversation fid now 1] := by
  unfold onSnapshotCallback
  simp [huser]

/-- Witness for C5: the empty snapshot on a concrete logged-in state. -/
theorem onSnapshot_empty_selfheal_witness :
    sampleStateUser.user = true ∧
    ((onSnapshotCallback "f" 9 [] sampleStateUser).conversations =
      [createNewConversation "f" 9 1] ∧
    (onSnapshotCallback "f" 9 [] sampleStateUser).currentConversationId =
      some (createNewConversation "f" 9 1).id ∧
    (onSnapshotCallback "f" 9 [] sampleStateUser).pendingSaves =
      sampleStateUser.pendingSaves ++ [createNewConversation "f" 9 1]) :=
  ⟨rfl, onSnapshot_empty_selfheal "f" 9 sampleStateUser rfl⟩

/-- Counterexample to claim C6 as stated: in a store holding only a
conversation `"a"` while the active id is `"b"` (absent), the
message-mutation operation is not a no-op — the fallback applies the
transform to `conversations[0]`. -/
theorem mutateMessages_absent_id_not_noop :
    (∀ c ∈ sampleStateStale.conversations, c.id ≠ "b") ∧
    sampleStateStale.currentConversationId = some "b" ∧
    updateCurrentConversationMessages (fun msgs => msgs ++ [⟨"user", "x", 0, none⟩])
        sampleStateStale ≠ sampleStateStale := by decide

/-- Claim C6 (amended): the message mutation applies the transform to the
conversation carrying the active id when one is present; when the active id
matches no conversation it falls back to the first conversation of a
non-empty store, and it is a no-op only on an empty store; in the first two
cases every conversation with a different id is unchanged. -/
theorem mutateMessages_amended (f : List Message → List Message) (s : AppState) :
    (∀ cur, s.conversations.find? (fun c => s.currentConversationId = some c.id) = some cur →
      (updateCurrentConversationMessages f s).conversations =
        s.conversations.map (fun c =>
          if c.id = cur.id then { c with messages := f c.messages } else c)) ∧
    (∀ c0 rest, s.conversations.find? (fun c => s.currentConversationId = some c.id) = none →
      s.conversations = c0 :: rest →
      (updateCurrentConversationMessages f s).conversations =
        s.conversations.map (fun c =>
          if c.id = c0.id then { c with messages := f c.messages } else c)) ∧
    (s.conversations = [] → updateCurrentConversationMessages f s = s) := by
  refine ⟨?_, ?_, ?_⟩
  · intro cur hf
    have hcur : currentConversation s = some cur := by
      unfold currentConversation
      rw [hf]
      rfl
    exact updateMessages_conversations f s cur hcur
  · intro c0 rest hf hcons
    have hcur : currentConversation s = some c0 := by
      unfold currentConversation
      rw [hf, hcons]
      rfl
    exact updateMessages_conversations f s c0 hcur
  · intro hnil
    have hc : currentConversation s = none := by
      unfold currentConversation
      rw [hnil]
      rfl
    unfold updateCurrentConversationMessages
    rw [hc]

/-- Witness for C6 (amended): the transform lands on the conversation with
the active id of a concrete store. -/
theorem mutateMessages_amended_witness :
    sampleState.conversations.find?
      (fun c => sampleState.currentConversationId = some c.id) = some sampleConvA ∧
    (updateCurrentConversationMessages
        (fun msgs => msgs ++ [⟨"user", "x", 3, none⟩]) sampleState).conversations =
      sampleState.conversations.map (fun c =>
        if c.id = sampleConvA.id then
          { c with messages := (fun msgs => msgs ++ [⟨"user", "x", 3, none⟩]) c.messages }
        else c) :=
  ⟨by decide,
   (mutateMessages_amended (fun msgs => msgs ++ [⟨"user", "x", 3, none⟩]) sampleState).1
     sampleConvA (by decide)⟩

/-- Counterexample to claim C7 as stated: renaming with `" Hi "` (which
contains non-whitespace) stores the trimmed `"Hi"`, not the proposed
title itself. -/
theorem rename_trims_counterexample :
    jsTrim " Hi " ≠ "" ∧
    (handleRenameChat sampleConvA (some " Hi ") sampleState).conversations.map
      Conversation.title = ["Hi"] ∧
    ("Hi" : String) ≠ " Hi " := by decide

/-- Claim C7 (amended): renaming with an empty or all-whitespace title is a
no-op; renaming with a title containing non-whitespace characters replaces
the conversation's title with the trimmed new title. -/
theorem rename_amended (conv : Conversation) (newTitle : String) (s : AppState) :
    (jsTrim newTitle = "" → handleRenameChat conv (some newTitle) s = s) ∧
    (jsTrim newTitle ≠ "" →
      (handleRenameChat conv (some newTitle) s).conversations =
        s.conversations.map (fun c =>
          if c.id = conv.id then { c with title := jsTrim newTitle } else c)) := by
  constructor
  · intro h
    simp only [handleRenameChat]
    rw [if_pos (Or.inr h)]
  · intro h
    have hne : newTitle ≠ "" := ne_empty_of_jsTrim_ne _ h
    simp only [handleRenameChat]
    rw [if_neg (by simp [hne, h])]

/-- Witness for C7 (amended): a blank rename is a no-op and a non-blank
rename installs the trimmed title, on concrete inputs. -/
theorem rename_amended_witness :
    (jsTrim "  " = "" ∧ handleRenameChat sampleConvA (some "  ") sampleState = sampleState) ∧
    (jsTrim " Hi " ≠ "" ∧
      (handleRenameChat sampleConvA (some " Hi ") sampleState).conversations =
        sampleState.conversations.map (fun c =>
          if c.id = sampleConvA.id then { c with title := jsTrim " Hi " } else c)) :=
  ⟨⟨by decide, (rename_amended sampleConvA "  " sampleState).1 (by decide)⟩,
   ⟨by decide, (rename_amended sampleConvA " Hi " sampleState).2 (by decide)⟩⟩

/-- Counterexample to claim C8 as stated: after creating a second chat,
deleting the first, and creating again, the third conversation created in
the session is titled `"New Chat 2"`, not `"New Chat 3"`. -/
theorem newchat_title_counterexample :
    ((handleNewChat "c" 3 (deleteChatById "x" 2 "a" (handleNewChat "b" 1
        sampleState))).conversations.find? (fun c => c.id = "c")).map
      Conversation.title = some "New Chat 2" ∧
    ("New Chat 2" : String) ≠ "New Chat 3" := by decide

/-- Claim C8 (amended): a conversation created by the new-chat action is
titled `"New Chat N"` where `N` is the current store size plus one (which
equals the session creation counter only while no deletion intervenes). -/
theorem newchat_title_amended (fid : String) (now : Nat) (s : AppState) :
    (handleNewChat fid now s).conversations =
      s.conversations ++ [createNewConversation fid now (s.conversations.length + 1)] ∧
    (createNewConversation fid now (s.conversations.length + 1)).title =
      "New Chat " ++ toString (s.conversations.length + 1) := ⟨rfl, rfl⟩

/-- Claim C10: deleting a conversation whose id is not the active one,
when at least one conversation remains, keeps the active id and keeps every
remaining conversation record untouched (the store becomes exactly the
original list with the deleted id filtered out). -/
theorem delete_nonactive_frame (fid : String) (now : Nat) (convId : String)
    (s : AppState)
    (hneq : s.currentConversationId ≠ some convId)
    (hrem : s.conversations.filter (fun c => c.id ≠ convId) ≠ []) :
    (deleteChatById fid now convId s).currentConversationId = s.currentConversationId ∧
    (deleteChatById fid now convId s).conversations =
      s.conversations.filter (fun c => c.id ≠ convId) := by
  unfold deleteChatById
  have hF : (s.conversations.filter (fun c => c.id ≠ convId)).isEmpty = false := by
    cases hl : s.conversations.filter (fun c => c.id ≠ convId) with
    | nil => exact absurd hl hrem
    | cons y ys => simp [hl]
  have hcond : ¬((s.conversations.filter (fun c => c.id ≠ convId)).isEmpty = true) := by
    intro hc
    rw [hc] at hF
    exact absurd hF (by decide)
  rw [if_neg hcond, if_neg hneq]
  exact ⟨rfl, rfl⟩

/-- Witness for C10: deleting the non-active conversation of a concrete
two-conversation store. -/
theorem delete_nonactive_frame_witness :
    sampleStateTwo.currentConversationId ≠ some "b" ∧
    sampleStateTwo.conversations.filter (fun c => c.id ≠ "b") ≠ [] ∧
    ((deleteChatById "x" 7 "b" sampleStateTwo).currentConversationId =
      sampleStateTwo.currentConversationId ∧
    (deleteChatById "x" 7 "b" sampleStateTwo).conversations =
      sampleStateTwo.conversations.filter (fun c => c.id ≠ "b")) :=
  ⟨by decide, by decide,
   delete_nonactive_frame "x" 7 "b" sampleStateTwo (by decide) (by decide)⟩
